import Mathlib

/-!
Verification of the STDM plugin's control-value-handler layer, its adapter
registry, the composer data-source selector and the database bootstrap
helper, shallowly embedded from the Python sources
(`stdm/ui/helpers/valuehandlers.py`, `stdm/ui/composer/composer_data_source.py`,
`data/template-database.py`).

Python values exchanged with the handlers are embedded as `PyVal`;
Python exceptions as `PyErr`; fallible Python calls return `Except PyErr _`.
Python floats are modelled as rationals (every float literal and every
conversion exercised here — `float("7")`, `0` — is exact).
-/

/-- Embedding of the plain Python values the value handlers exchange:
`None`, strings, ints, floats (as rationals), bools, lists, and the
Qt `QDate`/`QDateTime` values (abstracted to an integer day / timestamp). -/
inductive PyVal where
  | none
  | str (s : String)
  | int (n : Int)
  | float (q : Rat)
  | bool (b : Bool)
  | list (xs : List PyVal)
  | date (d : Int)
  | datetime (t : Int)

mutual

/-- Structural equality test on embedded Python values (the comparison the
Qt `findData` item lookup performs on item data). -/
def PyVal.beq : PyVal → PyVal → Bool
  | .none, .none => true
  | .str a, .str b => a == b
  | .int a, .int b => a == b
  | .float a, .float b => a == b
  | .bool a, .bool b => a == b
  | .list a, .list b => PyVal.beqs a b
  | .date a, .date b => a == b
  | .datetime a, .datetime b => a == b
  | _, _ => false

/-- Pointwise `PyVal.beq` on lists. -/
def PyVal.beqs : List PyVal → List PyVal → Bool
  | [], [] => true
  | a :: as, b :: bs => PyVal.beq a b && PyVal.beqs as bs
  | _, _ => false

end

/-- Embedding of the Python exception classes raised in the embedded code. -/
inductive PyErr where
  | typeError
  | valueError
  | attributeError
  | notImplementedError
  | runtimeError
deriving DecidableEq, Repr

/-- ASCII lower-casing of one character (the tokens compared by the
checkbox handler are ASCII). -/
def charLower (c : Char) : Char :=
  if 'A' ≤ c ∧ c ≤ 'Z' then Char.ofNat (c.toNat + 32) else c

/-- Python `str.lower()` on the ASCII fragment the handlers compare. -/
def pyLower (s : String) : String := ⟨s.data.map charLower⟩

/-- Digit run to a natural number; `Option.none` on the first
non-digit. -/
def natOfDigitsAux (acc : Nat) : List Char → Option Nat
  | [] => some acc
  | c :: cs =>
    if '0' ≤ c ∧ c ≤ '9' then
      natOfDigitsAux (10 * acc + (c.toNat - '0'.toNat)) cs
    else
      Option.none

/-- A non-empty list of decimal digits to a natural number. -/
def natOfDigitList (cs : List Char) : Option Nat :=
  if cs.isEmpty then Option.none else natOfDigitsAux 0 cs

/-- Python `int(x)` on a string: decimal digits with an optional leading
minus parse to the integer, anything else (e.g. `"abc"`, `""`) raises
`ValueError`. -/
def pyIntOfString (s : String) : Except PyErr Int :=
  match s.data with
  | '-' :: cs =>
    match natOfDigitList cs with
    | some n => .ok (-(n : Int))
    | Option.none => .error .valueError
  | cs =>
    match natOfDigitList cs with
    | some n => .ok ((n : Int))
    | Option.none => .error .valueError

/-- Decimal-string to rational: `"12.5"` to `25/2`; `Option.none` when the
text is not of the form `[-]digits[.digits]` (scientific notation,
`inf`/`nan` and leading-dot forms are outside the fragment the handlers
convert). Helper for `pyFloatOfString`. -/
def ratOfDecimalString (s : String) : Option Rat :=
  let core (cs : List Char) : Option Rat :=
    match cs.splitOn '.' with
    | [w] => (natOfDigitList w).map (fun n => (n : Rat))
    | [w, f] =>
      match natOfDigitList w,
        (if f.isEmpty then some 0 else natOfDigitList f) with
      | some wn, some fn =>
        some ((wn : Rat) + (fn : Rat) / ((10 : Rat) ^ f.length))
      | _, _ => Option.none
    | _ => Option.none
  match s.data with
  | '-' :: cs => (core cs).map Neg.neg
  | cs => core cs

/-- Python `float(x)` on a string: a decimal literal parses to its exact
rational value, anything else raises `ValueError`. -/
def pyFloatOfString (s : String) : Except PyErr Rat :=
  match ratOfDecimalString s with
  | some q => .ok q
  | Option.none => .error .valueError

/-- Python `int(value)` as called by `SpinBoxValueHandler.setValue`:
ints pass through, bools are 0/1, floats truncate toward zero, strings are
parsed, anything else raises `TypeError`. -/
def pyInt : PyVal → Except PyErr Int
  | .int n => .ok n
  | .bool b => .ok (if b then 1 else 0)
  | .float q => .ok (q.num.tdiv q.den)
  | .str s => pyIntOfString s
  | _ => .error .typeError

/-- Python `float(value)` as called by `DoubleSpinBoxValueHandler.setValue`. -/
def pyFloat : PyVal → Except PyErr Rat
  | .float q => .ok q
  | .int n => .ok (n : Rat)
  | .bool b => .ok (if b then 1 else 0)
  | .str s => pyFloatOfString s
  | _ => .error .typeError

/-- Python `str(value)` for the values reaching
`ExpressionLineEditValueHandler.setValue` (floats rendered from the
rational; the handlers under proof never stringify a float). -/
def pyStr : PyVal → String
  | .str s => s
  | .int n => toString n
  | .bool b => if b then "True" else "False"
  | .float q => toString q.num ++ "/" ++ toString q.den
  | .none => "None"
  | .list _ => "[...]"
  | .date d => toString d
  | .datetime t => toString t

/-! ## Qt control states

Each control the handlers wrap is embedded as the part of its state the
handlers read and write. -/

/-- `QLineEdit`: its text. `setText` accepts only a string (PyQt rejects
other types with `TypeError`). -/
structure QLineEditState where
  text : String
deriving DecidableEq, Repr

def QLineEditState.setText (v : PyVal) (_c : QLineEditState) :
    Except PyErr QLineEditState :=
  match v with
  | .str s => .ok ⟨s⟩
  | _ => .error .typeError

/-- `QCheckBox`: its checked state. -/
structure QCheckBoxState where
  checked : Bool
deriving DecidableEq, Repr

/-- `QCheckBox.setChecked(value)` on a non-bool argument: PyQt converts
bools and ints, other objects are rejected with `TypeError`. -/
def qtToBool : PyVal → Except PyErr Bool
  | .bool b => .ok b
  | .int n => .ok (n ≠ 0)
  | _ => .error .typeError

/-- `QComboBox`: item list (display text, item data) and current index
(`-1` when nothing is selected). -/
structure QComboBoxState where
  items : List (String × PyVal)
  currentIndex : Int

/-- `QComboBox.itemData(i)`: the data of item `i`, `None` (invalid
`QVariant`) when `i` is out of range. -/
def QComboBoxState.itemData (c : QComboBoxState) (i : Int) : PyVal :=
  if h : 0 ≤ i ∧ i.toNat < c.items.length then
    (c.items.get ⟨i.toNat, h.2⟩).2
  else
    .none

/-- `QComboBox.findData(d)`: index of the first item whose data equals `d`,
`-1` when there is none. -/
def QComboBoxState.findData (c : QComboBoxState) (d : PyVal) : Int :=
  match c.items.findIdx? (fun p => PyVal.beq p.2 d) with
  | some i => (i : Int)
  | Option.none => -1

/-- `QDateEdit`: its date. -/
structure QDateEditState where
  date : Int
deriving DecidableEq, Repr

/-- `QDateTimeEdit`: its date-time. -/
structure QDateTimeEditState where
  dateTime : Int
deriving DecidableEq, Repr

/-- `QSpinBox`: integer value clamped into `[minimum, maximum]`
(Qt default range 0..99). -/
structure QSpinBoxState where
  minimum : Int
  maximum : Int
  value : Int
deriving DecidableEq, Repr

def QSpinBoxState.setValue (n : Int) (c : QSpinBoxState) : QSpinBoxState :=
  ⟨c.minimum, c.maximum, max c.minimum (min c.maximum n)⟩

/-- `QDoubleSpinBox`: double value clamped into `[minimum, maximum]`
(Qt default range 0.0..99.99). -/
structure QDoubleSpinBoxState where
  minimum : Rat
  maximum : Rat
  value : Rat
deriving DecidableEq, Repr

def QDoubleSpinBoxState.setValue (q : Rat) (c : QDoubleSpinBoxState) :
    QDoubleSpinBoxState :=
  ⟨c.minimum, c.maximum, max c.minimum (min c.maximum q)⟩

/-- `MultipleSelectTreeView` (custom control; its module is not part of the
excerpt). Modelled from the spec: the multi-select control holds an ordered
sequence of identifiers; `selection()` reads it and `set_selection` replaces
it. -/
structure MultipleSelectTreeViewState where
  selection : PyVal

/-- `SourceDocumentManager` (its module is not part of the excerpt).
Modelled from the spec: the document-set manager holds the current document
objects; `model_objects()` reads them and `set_source_documents` replaces
them. -/
structure SourceDocumentManagerState where
  documents : PyVal

/-- `ExpressionLineEdit`: its text plus the bound column's declared output
type tag (`column.output_data_type`). -/
structure ExpressionLineEditState where
  text : String
  outputDataType : String
deriving DecidableEq, Repr

/-! ## Value handlers (`stdm/ui/helpers/valuehandlers.py`)

Each handler is embedded as its `value`, `setValue` and `default` methods
acting on the wrapped control's state. `setValue` returns `Except` exactly
where the Python method can let an exception escape. -/

/-- `LineEditValueHandler.default()`: `None`. -/
def LineEditValueHandler.default : PyVal := .none

/-- `LineEditValueHandler.value()`: the control's text, or `default()`
when the text is empty. -/
def LineEditValueHandler.value (c : QLineEditState) : PyVal :=
  if c.text = "" then LineEditValueHandler.default else .str c.text

/-- `LineEditValueHandler.setValue(value)`: `self.control.setText(value)`,
with no guard — a non-string argument lets the toolkit's `TypeError`
escape. -/
def LineEditValueHandler.setValue (v : PyVal) (c : QLineEditState) :
    Except PyErr QLineEditState :=
  QLineEditState.setText v c

/-- `CheckBoxValueHandler.default()`: `None`. -/
def CheckBoxValueHandler.default : PyVal := .none

/-- `CheckBoxValueHandler.value()`: `self.control.isChecked()`. -/
def CheckBoxValueHandler.value (c : QCheckBoxState) : PyVal :=
  .bool c.checked

/-- `CheckBoxValueHandler.setValue(value)`: a string checks the box iff its
lower-case form is one of `"yes"`, `"true"`, `"t"`, `"1"`; `None` unchecks;
any other value is passed to `setChecked`. -/
def CheckBoxValueHandler.setValue (v : PyVal) (_c : QCheckBoxState) :
    Except PyErr QCheckBoxState :=
  match v with
  | .str s =>
    if pyLower s ∈ ["yes", "true", "t", "1"] then
      .ok ⟨true⟩
    else
      .ok ⟨false⟩
  | .none => .ok ⟨false⟩
  | v => (qtToBool v).map (fun b => ⟨b⟩)

/-- `ComboBoxValueHandler.default()`: `None`. -/
def ComboBoxValueHandler.default : PyVal := .none

/-- `ComboBoxValueHandler.value()`: the item data of the current index. -/
def ComboBoxValueHandler.value (c : QComboBoxState) : PyVal :=
  c.itemData c.currentIndex

/-- `setComboCurrentIndexWithItemData` (`stdm/utils/util.py`, not part of
the excerpt). Modelled from the spec: `setValue` "writes a normalized value
into the control" — the combo moves to the item carrying that data and is
left unchanged when no item carries it. -/
def setComboCurrentIndexWithItemData (c : QComboBoxState) (v : PyVal) :
    QComboBoxState :=
  let i := c.findData v
  if i = -1 then c else ⟨c.items, i⟩

/-- `ComboBoxValueHandler.setValue(value)`. -/
def ComboBoxValueHandler.setValue (v : PyVal) (c : QComboBoxState) :
    QComboBoxState :=
  setComboCurrentIndexWithItemData c v

/-- `DateEditValueHandler.default()`: `QDate.currentDate()` (the ambient
current date is passed explicitly). -/
def DateEditValueHandler.default (today : Int) : PyVal := .date today

/-- `DateEditValueHandler.value()`: `self.control.date()`. -/
def DateEditValueHandler.value (c : QDateEditState) : PyVal :=
  .date c.date

/-- `DateEditValueHandler.setValue(value)`: `None` is ignored; a date is
written; a value of any other type raises `TypeError` inside `setDate`,
which the handler catches and passes. -/
def DateEditValueHandler.setValue (v : PyVal) (c : QDateEditState) :
    QDateEditState :=
  match v with
  | .none => c
  | .date d => ⟨d⟩
  | _ => c

/-- `DateTimeEditValueHandler.default()`: `QDateTime.currentDateTime()`
(the ambient current instant is passed explicitly). -/
def DateTimeEditValueHandler.default (now : Int) : PyVal := .datetime now

/-- `DateTimeEditValueHandler.value()`: `self.control.dateTime()`. -/
def DateTimeEditValueHandler.value (c : QDateTimeEditState) : PyVal :=
  .datetime c.dateTime

/-- `DateTimeEditValueHandler.setValue(value)`: a date-time is written; a
value of any other type raises `TypeError` inside `setDateTime`, which the
handler catches and passes. -/
def DateTimeEditValueHandler.setValue (v : PyVal) (c : QDateTimeEditState) :
    QDateTimeEditState :=
  match v with
  | .datetime t => ⟨t⟩
  | _ => c

/-- `SpinBoxValueHandler.default()`: `None`. -/
def SpinBoxValueHandler.default : PyVal := .none

/-- `SpinBoxValueHandler.value()`: `self.control.value()`, an int. -/
def SpinBoxValueHandler.value (c : QSpinBoxState) : PyVal :=
  .int c.value

/-- `SpinBoxValueHandler.setValue(value)`: `None` writes 0, otherwise
`int(value)` is written; the `int(...)` conversion can raise and nothing
catches it. -/
def SpinBoxValueHandler.setValue (v : PyVal) (c : QSpinBoxState) :
    Except PyErr QSpinBoxState :=
  match v with
  | .none => .ok (QSpinBoxState.setValue 0 c)
  | v => (pyInt v).map (fun n => QSpinBoxState.setValue n c)

/-- `DoubleSpinBoxValueHandler.default()`: `None`. -/
def DoubleSpinBoxValueHandler.default : PyVal := .none

/-- `DoubleSpinBoxValueHandler.value()`: `self.control.value()`, a float. -/
def DoubleSpinBoxValueHandler.value (c : QDoubleSpinBoxState) : PyVal :=
  .float c.value

/-- `DoubleSpinBoxValueHandler.setValue(value)`: `None` writes 0, otherwise
`float(value)` is written; the `float(...)` conversion can raise and
nothing catches it. -/
def DoubleSpinBoxValueHandler.setValue (v : PyVal) (c : QDoubleSpinBoxState) :
    Except PyErr QDoubleSpinBoxState :=
  match v with
  | .none => .ok (QDoubleSpinBoxState.setValue 0 c)
  | v => (pyFloat v).map (fun q => QDoubleSpinBoxState.setValue q c)

/-- `MultipleSelectTreeViewValueHandler.default()`: `[]`. -/
def MultipleSelectTreeViewValueHandler.default : PyVal := .list []

/-- `MultipleSelectTreeViewValueHandler.value()`: `self.control.selection()`. -/
def MultipleSelectTreeViewValueHandler.value
    (c : MultipleSelectTreeViewState) : PyVal :=
  c.selection

/-- `MultipleSelectTreeViewValueHandler.setValue(value)`: `None` is
ignored, otherwise `set_selection(value)` stores the value. -/
def MultipleSelectTreeViewValueHandler.setValue (v : PyVal)
    (c : MultipleSelectTreeViewState) : MultipleSelectTreeViewState :=
  match v with
  | .none => c
  | v => ⟨v⟩

/-- `SourceDocManagerValueHandler.default()`: `[]`. -/
def SourceDocManagerValueHandler.default : PyVal := .list []

/-- `SourceDocManagerValueHandler.value()`: `self.control.model_objects()`. -/
def SourceDocManagerValueHandler.value
    (c : SourceDocumentManagerState) : PyVal :=
  c.documents

/-- `SourceDocManagerValueHandler.setValue(value)`: `None` is ignored,
otherwise `set_source_documents(value)` stores the value. -/
def SourceDocManagerValueHandler.setValue (v : PyVal)
    (c : SourceDocumentManagerState) : SourceDocumentManagerState :=
  match v with
  | .none => c
  | v => ⟨v⟩

/-- `ExpressionLineEditValueHandler.default()`: `None`. -/
def ExpressionLineEditValueHandler.default : PyVal := .none

/-- `ExpressionLineEditValueHandler.value()`: dispatches on
`self.control.column.output_data_type`; empty text yields `default()`,
otherwise the text is converted with `float(...)`, `int(...)` or returned
as-is; an unknown tag falls off the end of the method and yields `None`. -/
def ExpressionLineEditValueHandler.value (c : ExpressionLineEditState) :
    Except PyErr PyVal :=
  if c.outputDataType = "float" then
    if c.text = "" then
      .ok ExpressionLineEditValueHandler.default
    else
      (pyFloatOfString c.text).map .float
  else if c.outputDataType = "int" then
    if c.text = "" then
      .ok ExpressionLineEditValueHandler.default
    else
      (pyIntOfString c.text).map .int
  else if c.outputDataType = "str" then
    if c.text = "" then
      .ok ExpressionLineEditValueHandler.default
    else
      .ok (.str c.text)
  else
    .ok .none

/-- `ExpressionLineEditValueHandler.setValue(value)`: `None` is ignored,
otherwise `setText(str(value))` writes the stringified value. -/
def ExpressionLineEditValueHandler.setValue (v : PyVal)
    (c : ExpressionLineEditState) : ExpressionLineEditState :=
  match v with
  | .none => c
  | v => ⟨pyStr v, c.outputDataType⟩

/-! ## The adapter registry (`ControlValueHandler.register`) -/

/-- A value-handler class as the registry sees it: the class itself (its
name) and `controlType.staticMetaObject.className()`. -/
structure HandlerClass where
  name : String
  controlTypeName : String
deriving DecidableEq, Repr

/-- Python dict assignment `d[k] = v` on an insertion-ordered dictionary:
overwrite the existing entry for `k` in place, else append. -/
def dictInsert (k : String) (v : HandlerClass) :
    List (String × HandlerClass) → List (String × HandlerClass)
  | [] => [(k, v)]
  | (k2, v2) :: rest =>
    if k2 = k then (k, v) :: rest else (k2, v2) :: dictInsert k v rest

/-- Python dict lookup `d[k]`: the value stored under `k`, if any. -/
def dictLookup (k : String) :
    List (String × HandlerClass) → Option HandlerClass
  | [] => Option.none
  | (k2, v2) :: rest => if k2 = k then some v2 else dictLookup k rest

/-- `ControlValueHandler.register()`: stores the class in the shared
`handlers` dict under its control type's class name
(`ControlValueHandler.handlers[ctlClassName] = cls`). -/
def ControlValueHandler.register (cls : HandlerClass)
    (handlers : List (String × HandlerClass)) :
    List (String × HandlerClass) :=
  dictInsert cls.controlTypeName cls handlers

/-- The `handlers` dict after a sequence of successful `register()` calls
starting from the initial empty dict. -/
def ControlValueHandler.registerAll (classes : List HandlerClass) :
    List (String × HandlerClass) :=
  classes.foldl (fun m c => ControlValueHandler.register c m) []

/-- The classes of `valuehandlers.py` in the order their module-level
`register()` calls run, each with its `controlType` class name. -/
def registeredHandlerClasses : List HandlerClass :=
  [⟨"LineEditValueHandler", "QLineEdit"⟩,
   ⟨"AdministrativeUnitLineEditValueHandler", "AdministrativeUnitLineEdit"⟩,
   ⟨"AutoGeneratedLineEditValueHandler", "AutoGeneratedLineEdit"⟩,
   ⟨"RelatedEntityLineEditValueHandler", "RelatedEntityLineEdit"⟩,
   ⟨"MultipleSelectTreeViewValueHandler", "MultipleSelectTreeView"⟩,
   ⟨"CheckBoxValueHandler", "QCheckBox"⟩,
   ⟨"TextEditValueHandler", "QTextEdit"⟩,
   ⟨"ComboBoxValueHandler", "QComboBox"⟩,
   ⟨"DateEditValueHandler", "QDateEdit"⟩,
   ⟨"DateTimeEditValueHandler", "QDateTimeEdit"⟩,
   ⟨"SourceDocManagerValueHandler", "SourceDocumentManager"⟩,
   ⟨"ForeignKeyMapperValueHandler", "ForeignKeyMapper"⟩,
   ⟨"SpinBoxValueHandler", "QSpinBox"⟩,
   ⟨"DoubleSpinBoxValueHandler", "QDoubleSpinBox"⟩,
   ⟨"CoordinatesWidgetValueHandler", "CoordinatesWidget"⟩,
   ⟨"MultipleChoiceComboBox", "MultipleChoiceCombo"⟩,
   ⟨"ExpressionLineEditValueHandler", "ExpressionLineEdit"⟩]

/-- The registered handler classes, as an enumeration, for the methods
resolved through Python's inheritance chain. -/
inductive HandlerKind where
  | lineEdit
  | adminUnitLineEdit
  | autoGeneratedLineEdit
  | relatedEntityLineEdit
  | multipleSelectTreeView
  | checkBox
  | textEdit
  | comboBox
  | dateEdit
  | dateTimeEdit
  | sourceDocManager
  | foreignKeyMapper
  | spinBox
  | doubleSpinBox
  | coordinatesWidget
  | multipleChoiceComboBox
  | expressionLineEdit
deriving DecidableEq, Repr

/-- `supportsMandatory()` as resolved on each registered handler class:
every class defines or inherits a boolean-returning override except
`MultipleChoiceComboBox`, whose lookup reaches the abstract
`ControlValueHandler.supportsMandatory`, which raises
`NotImplementedError`. -/
def HandlerKind.supportsMandatory : HandlerKind → Except PyErr Bool
  | .lineEdit => .ok true
  | .adminUnitLineEdit => .ok true
  | .autoGeneratedLineEdit => .ok true
  | .relatedEntityLineEdit => .ok true
  | .multipleSelectTreeView => .ok true
  | .checkBox => .ok false
  | .textEdit => .ok true
  | .comboBox => .ok true
  | .dateEdit => .ok false
  | .dateTimeEdit => .ok false
  | .sourceDocManager => .ok true
  | .foreignKeyMapper => .ok true
  | .spinBox => .ok false
  | .doubleSpinBox => .ok false
  | .coordinatesWidget => .ok false
  | .multipleChoiceComboBox => .error .notImplementedError
  | .expressionLineEdit => .ok true

/-! ## Composer data-source selector
(`stdm/ui/composer/composer_data_source.py`) -/

/-- Python `%`-formatting of a format string with one string argument, as
far as the bootstrap exercises it: `%s` substitutes the argument, `%%` is a
literal percent, a lone trailing `%` raises
`ValueError: incomplete format`, and any other conversion character raises
`ValueError`. -/
def pyPercentFormatChars (arg : String) : List Char → Except PyErr String
  | [] => .ok ""
  | ['%'] => .error .valueError
  | '%' :: 's' :: rest =>
    (pyPercentFormatChars arg rest).map (fun t => arg ++ t)
  | '%' :: '%' :: rest =>
    (pyPercentFormatChars arg rest).map (fun t => "%" ++ t)
  | '%' :: _ :: _ => .error .valueError
  | ch :: rest =>
    (pyPercentFormatChars arg rest).map (fun t => ch.toString ++ t)

/-- Python `fmt % arg` for a single string argument. -/
def pyPercentFormat (fmt arg : String) : Except PyErr String :=
  pyPercentFormatChars arg fmt.data

/-- `DatabaseCreator.createDbExtension()`. Returns the list of SQL texts
handed to `_execute`; `driverError` is the exception `_execute` itself
would raise, if any. The `except` clause runs `raise ex.message`, and a
standard Python 3 exception has no `message` attribute, so every failure
inside the `try` block surfaces to the caller as `AttributeError`. -/
def createDbExtension (template : Option String)
    (driverError : Option PyErr) : Except PyErr (List String) :=
  let body : Except PyErr (List String) := do
    let sql ← match template with
      | some t => pyPercentFormat "CREATE EXTENSION %" t
      | Option.none => pure "CREATE EXTENSION postgis"
    match driverError with
    | some e => throw e
    | Option.none => pure [sql]
  match body with
  | .ok r => .ok r
  | .error _ => .error .attributeError

/-! ## Shared lemmas -/

/-- Lookup immediately after a dict assignment under the same key yields
the assigned value. -/
theorem dictLookup_dictInsert (k : String) (v : HandlerClass)
    (m : List (String × HandlerClass)) :
    dictLookup k (dictInsert k v m) = some v := by
  induction m with
  | nil => simp [dictInsert, dictLookup]
  | cons q rest ih =>
    obtain ⟨k2, v2⟩ := q
    by_cases hk : k2 = k
    · simp [dictInsert, dictLookup, hk]
    · simp [dictInsert, dictLookup, hk, ih]

/-- Membership after a dict assignment: the entry is the new pair or was
already present. -/
theorem mem_dictInsert (p : String × HandlerClass) (k : String)
    (v : HandlerClass) (m : List (String × HandlerClass))
    (h : p ∈ dictInsert k v m) : p = (k, v) ∨ p ∈ m := by
  induction m with
  | nil =>
    simp only [dictInsert, List.mem_singleton] at h
    exact Or.inl h
  | cons q rest ih =>
    obtain ⟨k2, v2⟩ := q
    simp only [dictInsert] at h
    split at h
    · rcases List.mem_cons.mp h with h1 | h1
      · exact Or.inl h1
      · exact Or.inr (List.mem_cons_of_mem _ h1)
    · rcases List.mem_cons.mp h with h1 | h1
      · exact Or.inr (h1 ▸ List.mem_cons_self _ _)
      · rcases ih h1 with h2 | h2
        · exact Or.inl h2
        · exact Or.inr (List.mem_cons_of_mem _ h2)

/-- Key consistency of a `handlers` dict: every entry is stored under its
class's own control-type class name. -/
def registryConsistent (m : List (String × HandlerClass)) : Prop :=
  ∀ p ∈ m, p.2.controlTypeName = p.1

/-- A `register()` call preserves key consistency. -/
theorem registryConsistent_register (c : HandlerClass)
    (m : List (String × HandlerClass)) (hm : registryConsistent m) :
    registryConsistent (ControlValueHandler.register c m) := by
  intro p hp
  rcases mem_dictInsert p c.controlTypeName c m hp with h | h
  · rw [h]
  · exact hm p h

/-- Folding `register()` over any class list preserves key consistency. -/
theorem registryConsistent_foldl (cs : List HandlerClass)
    (m : List (String × HandlerClass)) (hm : registryConsistent m) :
    registryConsistent
      (cs.foldl (fun m c => ControlValueHandler.register c m) m) := by
  induction cs generalizing m with
  | nil => exact hm
  | cons c rest ih =>
    exact ih _ (registryConsistent_register c m hm)

/-! ## Claim theorems -/

/-- C4: registering two adapter classes in sequence under the same
control-kind identifier leaves a subsequent lookup of that identifier
returning the second-registered class: last write wins, with no
duplicate-key detection or rejection. -/
theorem C4_register_last_write_wins (m : List (String × HandlerClass))
    (c1 c2 : HandlerClass)
    (h : c1.controlTypeName = c2.controlTypeName) :
    dictLookup c1.controlTypeName
      (ControlValueHandler.register c2 (ControlValueHandler.register c1 m))
      = some c2 := by
  rw [h]
  exact dictLookup_dictInsert c2.controlTypeName c2 _

/-- Witness for C4 at two concrete classes sharing the key `QLineEdit`. -/
theorem C4_register_last_write_wins_witness :
    dictLookup "QLineEdit"
      (ControlValueHandler.register ⟨"SecondHandler", "QLineEdit"⟩
        (ControlValueHandler.register ⟨"FirstHandler", "QLineEdit"⟩ []))
      = some ⟨"SecondHandler", "QLineEdit"⟩ :=
  C4_register_last_write_wins [] ⟨"FirstHandler", "QLineEdit"⟩
    ⟨"SecondHandler", "QLineEdit"⟩ rfl

/-- C9: after any sequence of successful `register()` calls starting from
the empty `handlers` dict, every stored entry `(key, handlerClass)`
satisfies `handlerClass.controlType.staticMetaObject.className() == key`. -/
theorem C9_registry_key_consistency (cs : List HandlerClass)
    (p : String × HandlerClass)
    (hp : p ∈ ControlValueHandler.registerAll cs) :
    p.2.controlTypeName = p.1 :=
  registryConsistent_foldl cs [] (by intro q hq; cases hq) p hp

/-- Witness for C9 at a concrete one-element registration sequence. -/
theorem C9_registry_key_consistency_witness :
    (("QLineEdit", (⟨"LineEditValueHandler", "QLineEdit"⟩ : HandlerClass))
        : String × HandlerClass).2.controlTypeName = "QLineEdit" :=
  C9_registry_key_consistency [⟨"LineEditValueHandler", "QLineEdit"⟩]
    ("QLineEdit", ⟨"LineEditValueHandler", "QLineEdit"⟩) (by decide)

/-- C10: `MultipleChoiceComboBox` does not override `supportsMandatory`,
so calling it resolves to the abstract base method and raises
`NotImplementedError`, while every other registered handler returns a
boolean. -/
theorem C10_multiple_choice_supports_mandatory :
    HandlerKind.supportsMandatory .multipleChoiceComboBox
      = .error .notImplementedError ∧
    ∀ k : HandlerKind, k ≠ .multipleChoiceComboBox →
      ∃ b : Bool, HandlerKind.supportsMandatory k = .ok b := by
  refine ⟨rfl, ?_⟩
  intro k hk
  cases k <;>
    first
      | exact ⟨true, rfl⟩
      | exact ⟨false, rfl⟩
      | exact absurd rfl hk

/-- Witness for C10 at the spin-box handler. -/
theorem C10_multiple_choice_supports_mandatory_witness :
    ∃ b : Bool, HandlerKind.supportsMandatory .spinBox = .ok b :=
  C10_multiple_choice_supports_mandatory.2 .spinBox (by decide)

/-- C2 counterexample: `True` is a non-null input outside the token set,
yet for the checkbox adapter `setValue(True)` followed by `value()`
returns `True`, not `False` as the claim requires. -/
theorem C2_counterexample :
    (CheckBoxValueHandler.setValue (.bool true) ⟨false⟩).map
        CheckBoxValueHandler.value = .ok (.bool true) ∧
    (CheckBoxValueHandler.setValue (.bool true) ⟨false⟩).map
        CheckBoxValueHandler.value ≠ .ok (.bool false) := by
  refine ⟨rfl, fun h => ?_⟩
  rw [show (CheckBoxValueHandler.setValue (.bool true) ⟨false⟩).map
      CheckBoxValueHandler.value = .ok (.bool true) from rfl] at h
  injection h with h1
  injection h1 with h2
  exact Bool.noConfusion h2

/-- C2 (amended): for the checkbox adapter, every string whose lower-case
form is one of `"yes"`, `"true"`, `"t"`, `"1"` yields `value() == True`
after `setValue`, every other string yields `False`, and `None` yields
`False`; a non-null non-string input is instead coerced to its boolean
value (so `True` yields `True`). -/
theorem C2_checkbox_tokens (c : QCheckBoxState) :
    (∀ s : String, pyLower s ∈ ["yes", "true", "t", "1"] →
      (CheckBoxValueHandler.setValue (.str s) c).map
        CheckBoxValueHandler.value = .ok (.bool true)) ∧
    (∀ s : String, pyLower s ∉ ["yes", "true", "t", "1"] →
      (CheckBoxValueHandler.setValue (.str s) c).map
        CheckBoxValueHandler.value = .ok (.bool false)) ∧
    (CheckBoxValueHandler.setValue .none c).map
      CheckBoxValueHandler.value = .ok (.bool false) ∧
    (∀ b : Bool,
      (CheckBoxValueHandler.setValue (.bool b) c).map
        CheckBoxValueHandler.value = .ok (.bool b)) := by
  refine ⟨?_, ?_, rfl, fun b => rfl⟩
  · intro s hs
    simp [CheckBoxValueHandler.setValue, CheckBoxValueHandler.value,
      Except.map, hs]
  · intro s hs
    simp [CheckBoxValueHandler.setValue, CheckBoxValueHandler.value,
      Except.map, hs]

/-- Witness for C2 at the token `"YES"` and the non-token `"no"`. -/
theorem C2_checkbox_tokens_witness :
    (CheckBoxValueHandler.setValue (.str "YES") ⟨false⟩).map
        CheckBoxValueHandler.value = .ok (.bool true) ∧
    (CheckBoxValueHandler.setValue (.str "no") ⟨true⟩).map
        CheckBoxValueHandler.value = .ok (.bool false) :=
  ⟨(C2_checkbox_tokens ⟨false⟩).1 "YES" (by decide),
   (C2_checkbox_tokens ⟨true⟩).2.1 "no" (by decide)⟩

/-- C3 counterexample: the spin-box adapter's `setValue` on the
non-numeric string `"abc"` lets the `ValueError` from `int("abc")`
propagate, so type-incompatible input is not silently ignored. -/
theorem C3_counterexample :
    SpinBoxValueHandler.setValue (.str "abc") ⟨0, 99, 0⟩
      = .error .valueError := rfl

/-- C3 (amended): the date and date-time adapters catch the type mismatch
inside `setValue` and no-op, but the spin-box adapter raises `ValueError`
on a non-numeric string and `TypeError` on a non-numeric value, and the
line-edit adapter propagates the toolkit's `TypeError` on non-string
input; these failures are not caught. -/
theorem C3_set_value_type_mismatch (d : QDateEditState)
    (dt : QDateTimeEditState) (sp : QSpinBoxState)
    (dsp : QDoubleSpinBoxState) (le : QLineEditState) (n : Int) :
    DateEditValueHandler.setValue (.str "x") d = d ∧
    DateTimeEditValueHandler.setValue (.str "x") dt = dt ∧
    SpinBoxValueHandler.setValue (.str "abc") sp = .error .valueError ∧
    SpinBoxValueHandler.setValue (.list []) sp = .error .typeError ∧
    DoubleSpinBoxValueHandler.setValue (.str "abc") dsp
      = .error .valueError ∧
    DoubleSpinBoxValueHandler.setValue (.list []) dsp
      = .error .typeError ∧
    LineEditValueHandler.setValue (.int n) le = .error .typeError := by
  exact ⟨rfl, rfl, rfl, rfl, rfl, rfl, rfl⟩

/-- C5: the integer spin adapter maps `setValue(None)` to `value() == 0`
and `setValue("7")` to `value() == 7`, and the double spin adapter maps
`setValue(None)` to `value() == 0.0` and `setValue("7")` to
`value() == 7.0` (all on a default-range control). -/
theorem C5_numeric_adapters (vi : Int) (vd : Rat) :
    (SpinBoxValueHandler.setValue .none ⟨0, 99, vi⟩).map
      SpinBoxValueHandler.value = .ok (.int 0) ∧
    (SpinBoxValueHandler.setValue (.str "7") ⟨0, 99, vi⟩).map
      SpinBoxValueHandler.value = .ok (.int 7) ∧
    (DoubleSpinBoxValueHandler.setValue .none ⟨0, 9999 / 100, vd⟩).map
      DoubleSpinBoxValueHandler.value = .ok (.float 0) ∧
    (DoubleSpinBoxValueHandler.setValue (.str "7") ⟨0, 9999 / 100, vd⟩).map
      DoubleSpinBoxValueHandler.value = .ok (.float 7) := by
  refine ⟨rfl, rfl, ?_, ?_⟩
  · have hs : DoubleSpinBoxValueHandler.setValue .none ⟨0, 9999 / 100, vd⟩
        = .ok ⟨0, 9999 / 100, max 0 (min (9999 / 100) 0)⟩ := rfl
    have h0 : max (0 : Rat) (min (9999 / 100) 0) = 0 := by norm_num
    rw [hs, h0]
    rfl
  · have hs : DoubleSpinBoxValueHandler.setValue (.str "7") ⟨0, 9999 / 100, vd⟩
        = .ok ⟨0, 9999 / 100, max 0 (min (9999 / 100) ((7 : Nat) : Rat))⟩ :=
      rfl
    have h7 : max (0 : Rat) (min (9999 / 100) ((7 : Nat) : Rat)) = 7 := by
      norm_num
    rw [hs, h7]
    rfl

/-- C6: the expression adapter with output type tag `"int"` and control
text `"42"` returns the integer 42 from `value()`, and with empty text
returns `default() == None` for each of the tags `"float"`, `"int"` and
`"str"`. -/
theorem C6_expression_adapter :
    ExpressionLineEditValueHandler.value ⟨"42", "int"⟩ = .ok (.int 42) ∧
    ExpressionLineEditValueHandler.value ⟨"", "float"⟩
      = .ok ExpressionLineEditValueHandler.default ∧
    ExpressionLineEditValueHandler.value ⟨"", "int"⟩
      = .ok ExpressionLineEditValueHandler.default ∧
    ExpressionLineEditValueHandler.value ⟨"", "str"⟩
      = .ok ExpressionLineEditValueHandler.default ∧
    ExpressionLineEditValueHandler.default = .none :=
  ⟨rfl, rfl, rfl, rfl, rfl⟩

/-- C7: `createDbExtension` with a template raises (the malformed
`'CREATE EXTENSION %' % template` is an incomplete format) before any SQL
runs, without a template it executes `CREATE EXTENSION postgis`, and a
driver failure surfaces as `AttributeError` from `raise ex.message`
rather than the driver's own exception; the one-character `%s` fix yields
the SQL text the claim describes. -/
theorem C7_create_extension_behavior :
    createDbExtension (some "postgis_topology") Option.none
      = .error .attributeError ∧
    createDbExtension Option.none Option.none
      = .ok ["CREATE EXTENSION postgis"] ∧
    createDbExtension Option.none (some .runtimeError)
      = .error .attributeError ∧
    pyPercentFormat "CREATE EXTENSION %" "postgis_topology"
      = .error .valueError ∧
    pyPercentFormat "CREATE EXTENSION %s" "postgis_topology"
      = .ok "CREATE EXTENSION postgis_topology" :=
  ⟨rfl, rfl, rfl, rfl, rfl⟩

/-- C1 counterexample: for the checkbox adapter, `setValue(default())`
(that is, `setValue(None)`) followed by `value()` returns `False`, which
is not `default() = None`, so the empty-state round-trip fails for a
registered adapter kind named by the claim. -/
theorem C1_counterexample :
    (CheckBoxValueHandler.setValue CheckBoxValueHandler.default ⟨true⟩).map
        CheckBoxValueHandler.value = .ok (.bool false) ∧
    (PyVal.bool false) ≠ CheckBoxValueHandler.default := by
  refine ⟨rfl, fun h => ?_⟩
  exact PyVal.noConfusion h

/-- C1 (amended): the empty-state round-trip `setValue(default());
value() == default()` holds for the combo-box (on an empty combo), date,
date-time, multi-select, document-manager and expression (on empty
control text) adapters, but fails for the checkbox, spin and double-spin
adapters — after `setValue(default())` their `value()` returns `False`,
`0` and `0.0` instead of `default() = None` — and for the line-edit
adapter, whose `setValue(None)` passes `None` to the toolkit's text
setter, which rejects non-string input. -/
theorem C1_empty_state_round_trip (today now : Int) (d : QDateEditState)
    (dt : QDateTimeEditState) (ms : MultipleSelectTreeViewState)
    (sd : SourceDocumentManagerState) (e : ExpressionLineEditState)
    (he : e.text = "") (cb : QCheckBoxState) (vi : Int) (vd : Rat)
    (le : QLineEditState) :
    ComboBoxValueHandler.value
        (ComboBoxValueHandler.setValue ComboBoxValueHandler.default ⟨[], -1⟩)
      = ComboBoxValueHandler.default ∧
    DateEditValueHandler.value
        (DateEditValueHandler.setValue (DateEditValueHandler.default today) d)
      = DateEditValueHandler.default today ∧
    DateTimeEditValueHandler.value
        (DateTimeEditValueHandler.setValue
          (DateTimeEditValueHandler.default now) dt)
      = DateTimeEditValueHandler.default now ∧
    MultipleSelectTreeViewValueHandler.value
        (MultipleSelectTreeViewValueHandler.setValue
          MultipleSelectTreeViewValueHandler.default ms)
      = MultipleSelectTreeViewValueHandler.default ∧
    SourceDocManagerValueHandler.value
        (SourceDocManagerValueHandler.setValue
          SourceDocManagerValueHandler.default sd)
      = SourceDocManagerValueHandler.default ∧
    ExpressionLineEditValueHandler.value
        (ExpressionLineEditValueHandler.setValue
          ExpressionLineEditValueHandler.default e)
      = .ok ExpressionLineEditValueHandler.default ∧
    (CheckBoxValueHandler.setValue CheckBoxValueHandler.default cb).map
        CheckBoxValueHandler.value = .ok (.bool false) ∧
    (SpinBoxValueHandler.setValue SpinBoxValueHandler.default
        ⟨0, 99, vi⟩).map SpinBoxValueHandler.value = .ok (.int 0) ∧
    (DoubleSpinBoxValueHandler.setValue DoubleSpinBoxValueHandler.default
        ⟨0, 9999 / 100, vd⟩).map DoubleSpinBoxValueHandler.value
      = .ok (.float 0) ∧
    LineEditValueHandler.setValue LineEditValueHandler.default le
      = .error .typeError := by
  refine ⟨rfl, rfl, rfl, rfl, rfl, ?_, rfl, rfl, ?_, rfl⟩
  · obtain ⟨t, tag⟩ := e
    have ht : t = "" := he
    subst ht
    simp [ExpressionLineEditValueHandler.setValue,
      ExpressionLineEditValueHandler.value,
      ExpressionLineEditValueHandler.default]
  · have hs : DoubleSpinBoxValueHandler.setValue
        DoubleSpinBoxValueHandler.default ⟨0, 9999 / 100, vd⟩
        = .ok ⟨0, 9999 / 100, max 0 (min (9999 / 100) 0)⟩ := rfl
    have h0 : max (0 : Rat) (min (9999 / 100) 0) = 0 := by norm_num
    rw [hs, h0]
    rfl

/-- Witness for C1 (amended) at concrete controls, with the expression
control's text empty. -/
theorem C1_empty_state_round_trip_witness :
    ExpressionLineEditValueHandler.value
        (ExpressionLineEditValueHandler.setValue
          ExpressionLineEditValueHandler.default ⟨"", "int"⟩)
      = .ok ExpressionLineEditValueHandler.default ∧
    (SpinBoxValueHandler.setValue SpinBoxValueHandler.default
        ⟨0, 99, 5⟩).map SpinBoxValueHandler.value = .ok (.int 0) :=
  ⟨(C1_empty_state_round_trip 0 0 ⟨0⟩ ⟨0⟩ ⟨.list []⟩ ⟨.list []⟩ ⟨"", "int"⟩
      rfl ⟨false⟩ 5 0 ⟨""⟩).2.2.2.2.2.1,
   (C1_empty_state_round_trip 0 0 ⟨0⟩ ⟨0⟩ ⟨.list []⟩ ⟨.list []⟩ ⟨"", "int"⟩
      rfl ⟨false⟩ 5 0 ⟨""⟩).2.2.2.2.2.2.2.1⟩

